import Mathlib

/- Batteries marks the rational-number operations `@[irreducible]`, which
blocks `decide`/`rfl` evaluation of the concrete tables below; restore the
ordinary reducibility (the kernel ignores reducibility hints anyway). -/
set_option allowUnsafeReducibility true
attribute [semireducible] Rat.add Rat.mul Rat.inv Rat.div Rat.sub Rat.neg

/-!
# Verification of the train-delay-323 data pipeline

A shallow embedding of the pandas-based data pipeline in `src/`:
`data_processing/cleaner.py` (DataCleaner), `analysis/statistical_model.py`
(StatisticalAnalyzer), `gis_output/spatial_processor.py` (SpatialProcessor)
and `main.py` (run_pipeline).

A pandas DataFrame is modelled as a list of rows, each row an association
list from column names to cells; the frame carries its column list.  A cell
is null (NaN/NaT/None), a number (float64/int64, modelled exactly as `Rat`),
a string, or a timestamp (datetime64, modelled as seconds since the Unix
epoch as `Int`).  String-to-number and string-to-datetime parsing
(`pd.to_numeric` / `pd.to_datetime` on strings) is delegated by pandas to
its parsers; the embedding takes those parsers as explicit function
arguments, as it does the numeric kernels delegated to scipy/pandas
(`stats.ttest_ind`, `Series.describe`, `Series.corr`).
-/

/-- A pandas cell: missing value (`NaN`/`NaT`/`None`), float/int (exact
rational), string, or datetime (seconds since the Unix epoch). -/
inductive Cell where
  | null : Cell
  | num  : Rat → Cell
  | str  : String → Cell
  | time : Int → Cell
deriving DecidableEq, Repr

/-- One DataFrame row: an association list from column name to cell. -/
abbrev Row := List (String × Cell)

/-- Value of column `c` in row `r` (first binding wins, as column names are
unique in a well-formed frame). -/
def rowGet : Row → String → Option Cell
  | [], _ => none
  | p :: r, c => if p.1 = c then some p.2 else rowGet r c

/-- The column names bound in a row, in order. -/
def rowKeys (r : Row) : List String := r.map Prod.fst

/-- A pandas DataFrame: its column names and its rows. -/
structure DF where
  cols : List String
  rows : List Row
deriving DecidableEq, Repr

/-- The empty DataFrame, `pd.DataFrame()`. -/
def DF.empty : DF := ⟨[], []⟩

/-- Well-formedness: every row binds exactly the frame's columns, in order.
Every actual pandas DataFrame satisfies this by construction. -/
def DF.WF (df : DF) : Prop := ∀ r ∈ df.rows, rowKeys r = df.cols

instance (df : DF) : Decidable df.WF := by
  unfold DF.WF; infer_instance

/-- Replace the value bound to column `c` in a row (keeps position, like a
pandas column assignment on an existing column). -/
def replaceAt (c : String) (v : Cell) (r : Row) : Row :=
  r.map (fun p => if p.1 = c then (c, v) else p)

/-- Models `df[c] = df.apply(f, axis=1)`: pandas column assignment.  If the column
exists it is overwritten in place; otherwise it is appended as a new last
column.  `f` sees the whole (old) row. -/
def DF.setCol (df : DF) (c : String) (f : Row → Cell) : DF :=
  if c ∈ df.cols then
    ⟨df.cols, df.rows.map (fun r => replaceAt c (f r) r)⟩
  else
    ⟨df.cols ++ [c], df.rows.map (fun r => r ++ [(c, f r)])⟩

/-- Models `if c in df.columns: df[c] = ...` — the guarded column assignment used
throughout `cleaner.py`. -/
def DF.maybeSetCol (df : DF) (c : String) (f : Row → Cell) : DF :=
  if c ∈ df.cols then df.setCol c f else df

/-! ## Record Cleaner (`src/data_processing/cleaner.py`, class `DataCleaner`) -/

/-- Models `pd.to_numeric(x, errors='coerce')` on one cell.  Numbers stay, strings
go through the pandas numeric parser `pN` (unparsable becomes NaN, i.e.
null), nulls stay null, datetimes become their integer epoch value (pandas
converts datetime input numerically; the epoch scale does not matter for
any claim).  A missing binding is treated as null. -/
def toNumericCell (pN : String → Option Rat) : Option Cell → Cell
  | some (.num q) => .num q
  | some (.str s) =>
    match pN s with
    | some q => .num q
    | none => .null
  | some (.time t) => .num (t : Rat)
  | some .null => .null
  | none => .null

/-- Models `pd.to_datetime(x, errors='coerce')` on one cell.  Datetimes stay,
strings go through the pandas datetime parser `pT` (unparsable becomes NaT,
i.e. null), nulls stay null, numbers are read as an epoch offset (pandas
interprets numeric input as an epoch offset; fractions are truncated). -/
def toDatetimeCell (pT : String → Option Int) : Option Cell → Cell
  | some (.time t) => .time t
  | some (.str s) =>
    match pT s with
    | some t => .time t
    | none => .null
  | some (.num q) => .time q.floor
  | some .null => .null
  | none => .null

/-- Models `Series.fillna(v)` on one cell: null becomes `v`, anything else kept. -/
def fillCell (v : Cell) : Option Cell → Cell
  | some .null => v
  | none => v
  | some c => c

/-- Models `Series.dt.dayofweek` on one cell: Monday = 0 … Sunday = 6 (the Unix
epoch 1970-01-01 was a Thursday, day 3); NaT gives NaN. -/
def dayOfWeekCell : Option Cell → Cell
  | some (.time t) => .num (((Int.fdiv t 86400 + 3).emod 7 : Int) : Rat)
  | _ => .null

/-- Models `Series.dt.hour` on one cell: hour of day 0 … 23; NaT gives NaN. -/
def hourOfDayCell : Option Cell → Cell
  | some (.time t) => .num ((Int.fdiv (t.emod 86400) 3600 : Int) : Rat)
  | _ => .null

/-- Recursion core of `dedupKeepFirst`, structural in a fuel argument so
that it evaluates by kernel reduction; each step consumes at least one list
element, so fuel equal to the length always suffices. -/
def dedupKeepFirstGo {α : Type} [DecidableEq α] : Nat → List α → List α
  | _, [] => []
  | 0, _ :: _ => []
  | fuel + 1, a :: l =>
    a :: dedupKeepFirstGo fuel (l.filter (fun x => decide (x ≠ a)))

/-- Models `DataFrame.drop_duplicates()`: remove exact-duplicate elements, keeping
the first occurrence of each, preserving order. -/
def dedupKeepFirst {α : Type} [DecidableEq α] (l : List α) : List α :=
  dedupKeepFirstGo l.length l

/-- Step 1 of `DataCleaner.clean_train_delays` (cleaner.py lines 28-38):
coerce `delay_minutes` to numeric and `scheduled_time`, `actual_time`,
`date` to datetime, each only when the column is present.  `pN`/`pT` are
the pandas string parsers. -/
def cleanTrainCoerced (pN : String → Option Rat) (pT : String → Option Int)
    (df : DF) : DF :=
  (((df.maybeSetCol "delay_minutes"
        (fun r => toNumericCell pN (rowGet r "delay_minutes"))).maybeSetCol
      "scheduled_time"
      (fun r => toDatetimeCell pT (rowGet r "scheduled_time"))).maybeSetCol
    "actual_time"
    (fun r => toDatetimeCell pT (rowGet r "actual_time"))).maybeSetCol
    "date" (fun r => toDatetimeCell pT (rowGet r "date"))

/-- Step 2 (cleaner.py lines 41-42): `df['delay_minutes'] =
df['delay_minutes'].fillna(0)` when the column is present. -/
def cleanTrainFilled (pN : String → Option Rat) (pT : String → Option Int)
    (df : DF) : DF :=
  (cleanTrainCoerced pN pT df).maybeSetCol "delay_minutes"
    (fun r => fillCell (.num 0) (rowGet r "delay_minutes"))

/-- Step 3 (cleaner.py line 45): `df.drop_duplicates(inplace=True)`. -/
def cleanTrainDeduped (pN : String → Option Rat) (pT : String → Option Int)
    (df : DF) : DF :=
  ⟨(cleanTrainFilled pN pT df).cols,
    dedupKeepFirst (cleanTrainFilled pN pT df).rows⟩

/-- Models `DataCleaner.clean_train_delays` (cleaner.py lines 15-52): the three
steps above, then (lines 48-50) derive `day_of_week` and `hour_of_day`
from `scheduled_time` when that column is present — a plain pandas column
assignment, which overwrites an existing column of the same name. -/
def clean_train_delays (pN : String → Option Rat) (pT : String → Option Int)
    (df : DF) : DF :=
  let df6 := cleanTrainDeduped pN pT df
  if "scheduled_time" ∈ df6.cols then
    (df6.setCol "day_of_week"
        (fun r => dayOfWeekCell (rowGet r "scheduled_time"))).setCol
      "hour_of_day" (fun r => hourOfDayCell (rowGet r "scheduled_time"))
  else df6

/-- Does a row contain any null cell? -/
def rowHasNull (r : Row) : Bool := r.any (fun p => decide (p.2 = Cell.null))

/-- Models `DataCleaner.clean_weather_data` (cleaner.py lines 54-85): coerce
`temperature`, `humidity`, `wind_speed`, `precipitation` to numeric and
`date` to datetime (each only when present), then `dropna()`: drop every
row containing a null in any column. -/
def clean_weather_data (pN : String → Option Rat) (pT : String → Option Int)
    (df : DF) : DF :=
  let df5 := ((((df.maybeSetCol "temperature"
        (fun r => toNumericCell pN (rowGet r "temperature"))).maybeSetCol
      "humidity" (fun r => toNumericCell pN (rowGet r "humidity"))).maybeSetCol
      "wind_speed"
      (fun r => toNumericCell pN (rowGet r "wind_speed"))).maybeSetCol
      "precipitation"
      (fun r => toNumericCell pN (rowGet r "precipitation"))).maybeSetCol
      "date" (fun r => toDatetimeCell pT (rowGet r "date"))
  ⟨df5.cols, df5.rows.filter (fun r => !(rowHasNull r))⟩

/-- Models `DataCleaner.merge_data` (cleaner.py lines 87-109):
`pd.merge(train_df, weather_df, on=on_column, how='left')`.  Each left row
is paired with every right row having an equal key value (pandas matches
NaN keys with NaN); a left row with no match gets nulls in all non-key
right columns.  A missing key column raises `KeyError`, which the function
catches, returning `pd.DataFrame()`.  (Overlapping non-key column names
would be suffixed `_x`/`_y` by pandas; the repository's delay and weather
schemas share only the key, and the embedding concatenates unchanged.) -/
def merge_data (train weather : DF) (on_column : String) : DF :=
  if on_column ∈ train.cols ∧ on_column ∈ weather.cols then
    ⟨train.cols ++ weather.cols.filter (fun c => !(c == on_column)),
      train.rows.flatMap (fun tr =>
        match weather.rows.filter
            (fun wr => decide (rowGet wr on_column = rowGet tr on_column)) with
        | [] =>
          [tr ++ (weather.cols.filter (fun c => !(c == on_column))).map
              (fun c => (c, Cell.null))]
        | m :: ms =>
          (m :: ms).map
            (fun wr => tr ++ wr.filter (fun p => !(p.1 == on_column)))) ⟩
  else DF.empty

/-! ## Aggregator (`src/analysis/statistical_model.py`,
class `StatisticalAnalyzer`) -/

/-- Is this cell compatible with a numeric (float/int) column dtype? -/
def cellIsNumOrNull : Option Cell → Bool
  | some (.num _) => true
  | some .null => true
  | none => true
  | _ => false

/-- Models `pd.api.types.is_numeric_dtype(df[c])`: a column holds a numeric dtype
exactly when every cell is a number or NaN (a string or datetime anywhere
makes the dtype object/datetime64). -/
def DF.isNumericCol (df : DF) (c : String) : Bool :=
  df.rows.all (fun r => cellIsNumOrNull (rowGet r c))

/-- Is this cell compatible with a datetime64 column dtype? -/
def cellIsTimeOrNull : Option Cell → Bool
  | some (.time _) => true
  | some .null => true
  | none => true
  | _ => false

/-- Models `pd.api.types.is_datetime64_any_dtype(df[c])`. -/
def DF.isDatetimeCol (df : DF) (c : String) : Bool :=
  df.rows.all (fun r => cellIsTimeOrNull (rowGet r c))

/-- Extract the numeric value of a cell, if any. -/
def numOpt : Option Cell → Option Rat
  | some (.num q) => some q
  | _ => none

/-- The non-null numeric values of column `c`, in row order (what a pandas
NaN-skipping reduction over `df[c]` consumes). -/
def DF.numColValues (df : DF) (c : String) : List Rat :=
  df.rows.filterMap (fun r => numOpt (rowGet r c))

/-- Models `df[col] == v` on one cell: pandas scalar comparison, where NaN compares
unequal to everything (including NaN) — unlike the merge key matching. -/
def cellEqScalar : Option Cell → Cell → Bool
  | some c, v => !(decide (c = Cell.null)) && !(decide (v = Cell.null))
      && decide (c = v)
  | none, _ => false

/-- Models `df[df[group_col] == g][value_col].dropna()` — one t-test sample
(statistical_model.py lines 62-63). -/
def ttestGroup (df : DF) (group_col value_col : String) (g : Cell) :
    List Rat :=
  (df.rows.filter (fun r => cellEqScalar (rowGet r group_col) g)).filterMap
    (fun r => numOpt (rowGet r value_col))

/-- The eight fields of `Series.describe()`. -/
structure DescStats where
  count : Rat
  mean : Rat
  std : Rat
  min : Rat
  q25 : Rat
  q50 : Rat
  q75 : Rat
  max : Rat
deriving DecidableEq, Repr

/-- Models `StatisticalAnalyzer.get_descriptive_statistics` (statistical_model.py
lines 17-36): returns `None` when the column is missing or not numeric,
otherwise the pandas `describe()` summary of the column's non-null values
(the summary computation itself, which needs square roots, is pandas's;
the embedding takes it as the function argument `describe`). -/
def get_descriptive_statistics (describe : List Rat → DescStats) (df : DF)
    (column : String) : Option DescStats :=
  if column ∈ df.cols ∧ df.isNumericCol column = true then
    some (describe (df.numColValues column))
  else none

/-- Models `StatisticalAnalyzer.perform_t_test` (statistical_model.py lines 38-73):
`None` when a named column is missing or the value column is not numeric;
builds the two samples by equality on the group column and drops nulls;
`None` when either sample has fewer than 2 observations; otherwise the
scipy independent two-sample t-test result (`ttest` stands for
`scipy.stats.ttest_ind`, which returns a (statistic, pvalue) pair and does
not raise on samples of size ≥ 2).  Total: it never raises. -/
def perform_t_test (ttest : List Rat → List Rat → Rat × Rat) (df : DF)
    (group_col value_col : String) (g1 g2 : Cell) : Option (Rat × Rat) :=
  if ¬(group_col ∈ df.cols ∧ value_col ∈ df.cols) then none
  else if ¬(df.isNumericCol value_col = true) then none
  else
    let group1 := ttestGroup df group_col value_col g1
    let group2 := ttestGroup df group_col value_col g2
    if group1.length < 2 ∨ group2.length < 2 then none
    else some (ttest group1 group2)

/-- The three correlation methods accepted by `Series.corr`. -/
inductive CorrMethod where
  | pearson | kendall | spearman
deriving DecidableEq, Repr

/-- The rows where both columns hold a number — the pairs pandas
`Series.corr` actually consumes (it ignores rows with a null on either
side). -/
def pairedValues (df : DF) (c1 c2 : String) : List (Rat × Rat) :=
  df.rows.filterMap (fun r =>
    match numOpt (rowGet r c1), numOpt (rowGet r c2) with
    | some a, some b => some (a, b)
    | _, _ => none)

/-- Models `StatisticalAnalyzer.calculate_correlation` (statistical_model.py lines
75-100): `None` when a column is missing or either column is not numeric,
otherwise the pandas pairwise correlation coefficient (`corrOf` stands for
`Series.corr`). -/
def calculate_correlation (corrOf : CorrMethod → List (Rat × Rat) → Rat)
    (df : DF) (col1 col2 : String) (method : CorrMethod) : Option Rat :=
  if ¬(col1 ∈ df.cols ∧ col2 ∈ df.cols) then none
  else if ¬(df.isNumericCol col1 = true ∧ df.isNumericCol col2 = true) then
    none
  else some (corrOf method (pairedValues df col1 col2))

/-- Resampling frequency: `'H'` (hourly) or `'D'` (daily). -/
inductive Freq where
  | hourly | daily
deriving DecidableEq, Repr

/-- Bucket width in seconds. -/
def Freq.seconds : Freq → Int
  | .hourly => 3600
  | .daily => 86400

/-- Kernel-computable minimum of two integers. -/
def imin (a b : Int) : Int := if a ≤ b then a else b

/-- Kernel-computable maximum of two integers. -/
def imax (a b : Int) : Int := if a ≤ b then b else a

/-- The string aggregation functions used by the repository. -/
inductive AggFunc where
  | mean | sum
deriving DecidableEq, Repr

/-- Aggregate one resample bucket's non-null values: `mean` of an empty
bucket is NaN, `sum` of an empty bucket is 0 (pandas `min_count=0`). -/
def aggCell : AggFunc → List Rat → Cell
  | .mean, [] => .null
  | .mean, vs => .num (vs.sum / (vs.length : Rat))
  | .sum, vs => .num vs.sum

/-- Models `StatisticalAnalyzer.aggregate_by_time` (statistical_model.py lines
102-138): empty-frame sentinel when a column is missing, the time column is
not datetime, or the value column is not numeric; otherwise
`df.set_index(time_col)[value_col].resample(freq).agg(agg_func).to_frame()`:
rows with a NaT index are dropped, the remaining rows are bucketed into
fixed-width intervals covering min to max (empty intermediate buckets
included), and each bucket's values are aggregated, NaN-skipping. -/
def aggregate_by_time (df : DF) (time_col value_col : String) (freq : Freq)
    (agg_func : AggFunc) : DF :=
  if ¬(time_col ∈ df.cols ∧ value_col ∈ df.cols) then DF.empty
  else if ¬(df.isDatetimeCol time_col = true) then DF.empty
  else if ¬(df.isNumericCol value_col = true) then DF.empty
  else
    let pts : List (Int × Option Cell) := df.rows.filterMap (fun r =>
      match rowGet r time_col with
      | some (.time t) => some (t, rowGet r value_col)
      | _ => none)
    match pts with
    | [] => ⟨[time_col, value_col], []⟩
    | p :: rest =>
      let s := freq.seconds
      let b0 := Int.fdiv p.1 s
      let bmin := rest.foldl (fun m q => imin m (Int.fdiv q.1 s)) b0
      let bmax := rest.foldl (fun m q => imax m (Int.fdiv q.1 s)) b0
      let buckets := (List.range ((bmax - bmin).toNat + 1)).map
        (fun i => bmin + (i : Int))
      ⟨[time_col, value_col],
        buckets.map (fun d =>
          let vs := (p :: rest).filterMap (fun q =>
            if Int.fdiv q.1 s = d then numOpt q.2 else none)
          [(time_col, Cell.time (d * s)), (value_col, aggCell agg_func vs)])⟩

/-! ## Geo Builder (`src/gis_output/spatial_processor.py`,
class `SpatialProcessor`) -/

/-- A shapely point geometry. -/
structure GeoPoint where
  x : Rat
  y : Rat
deriving DecidableEq, Repr

/-- A geopandas GeoDataFrame: attribute table, one geometry per row, and an
optional coordinate reference system tag. -/
structure GeoDF where
  table : DF
  geometry : List GeoPoint
  crs : Option String
deriving DecidableEq, Repr

/-- Is the cell present and non-null (so `dropna(subset=...)` keeps it)? -/
def cellNotNull : Option Cell → Bool
  | some c => !(decide (c = Cell.null))
  | none => false

/-- Models `Point((row[lon_col], row[lat_col]))`: shapely succeeds exactly when
both coordinates are numbers (it raises on strings or datetimes). -/
def rowPoint (lat_col lon_col : String) (r : Row) : Option GeoPoint :=
  match rowGet r lon_col, rowGet r lat_col with
  | some (.num x), some (.num y) => some ⟨x, y⟩
  | _, _ => none

/-- Models `SpatialProcessor.create_gdf_from_points` (spatial_processor.py lines
18-45): `None` when a coordinate column is missing; otherwise drops rows
with null latitude or longitude, then builds one `Point(lon, lat)` per
remaining row.  If any remaining coordinate is non-numeric, shapely raises,
the exception is caught, and the function returns `None`. -/
def create_gdf_from_points (df : DF) (lat_col lon_col : String)
    (crs : String) : Option GeoDF :=
  if ¬(lat_col ∈ df.cols ∧ lon_col ∈ df.cols) then none
  else
    let cleaned := df.rows.filter (fun r =>
      cellNotNull (rowGet r lat_col) && cellNotNull (rowGet r lon_col))
    if cleaned.all (fun r => (rowPoint lat_col lon_col r).isSome) then
      some ⟨⟨df.cols, cleaned⟩, cleaned.filterMap (rowPoint lat_col lon_col),
        some crs⟩
    else none

/-- Models `SpatialProcessor.create_leaflet_geojson` (spatial_processor.py lines
109-130), modelled as the geometry collection actually written to the
GeoJSON file: when the collection carries a CRS tag different from
"EPSG:4326" it is reprojected with `to_crs(epsg=4326)` (`reproject src dst`
stands for the pyproj coordinate transformation); when the tag already is
"EPSG:4326", or when there is no CRS tag at all (`gdf.crs` falsy), the
collection is written unchanged. -/
def create_leaflet_geojson (reproject : String → String → GeoPoint → GeoPoint)
    (gdf : GeoDF) : GeoDF :=
  match gdf.crs with
  | some c =>
    if c ≠ "EPSG:4326" then
      ⟨gdf.table, gdf.geometry.map (reproject c "EPSG:4326"),
        some "EPSG:4326"⟩
    else gdf
  | none => gdf

/-! ## Pipeline Orchestrator (`src/main.py`, `run_pipeline`) -/

/-- The five phases of the orchestrator. -/
inductive Phase where
  | acquire | cleanMerge | analyze | visualize | exportGeo
deriving DecidableEq, Repr

/-- Observable outcome of one `run_pipeline` invocation: the phases entered
in order, whether the process died on an uncaught exception, the merged
table, and the analysis results. -/
structure PipelineRun where
  phases : List Phase
  crashed : Bool
  merged : DF
  delayStats : Option DescStats
  snowyTTest : Option (Rat × Rat)
  tempCorr : Option Rat
  dailyAgg : DF
deriving Repr

/-- Models `run_pipeline` (main.py lines 29-188), from the point where the raw
tables exist (the acquisition phase is inert: network calls are bypassed
and `train_raw`/`weather_raw` are the hard-coded sample tables; the
embedding takes them as arguments).  Control flow, from the source:
clean both tables, merge on `date`; if the merged frame is empty
(`DataFrame.empty`: either axis has length 0), print and `return` — the
Analyze, Visualize and Export-Geo phases never run.  Otherwise Analyze runs
(every result is null-checked and failure only skips a print), then
Visualize runs its plots — but `plotter.plot_correlation_heatmap` is called
with the non-empty column list `['delay_minutes', 'temperature',
'humidity']` and its body evaluates `np.number`, while `plotter.py` never
imports numpy: the call raises `NameError` (`KeyError` first, if one of the
three columns is absent from the merged frame).  Nothing catches it, so
every run that passes the empty-merge check dies inside the Visualize
phase and Export-Geo is never entered. -/
def run_pipeline (pN : String → Option Rat) (pT : String → Option Int)
    (ttest : List Rat → List Rat → Rat × Rat)
    (describe : List Rat → DescStats)
    (corrOf : CorrMethod → List (Rat × Rat) → Rat)
    (train_raw weather_raw : DF) : PipelineRun :=
  let train_c := clean_train_delays pN pT train_raw
  let weather_c := clean_weather_data pN pT weather_raw
  let merged := merge_data train_c weather_c "date"
  if merged.rows.isEmpty || merged.cols.isEmpty then
    ⟨[.acquire, .cleanMerge], false, merged, none, none, none, DF.empty⟩
  else
    let delayStats := get_descriptive_statistics describe merged
      "delay_minutes"
    let merged2 := if "weather_condition" ∈ merged.cols then
        merged.setCol "is_snowy" (fun r =>
          if rowGet r "weather_condition" = some (.str "snowy") then .num 1
          else .num 0)
      else merged
    let snowyTTest := if "weather_condition" ∈ merged.cols then
        perform_t_test ttest merged2 "is_snowy" "delay_minutes" (.num 1)
          (.num 0)
      else none
    let tempCorr := if "temperature" ∈ merged2.cols then
        calculate_correlation corrOf merged2 "delay_minutes" "temperature"
          .pearson
      else none
    let dailyAgg := if "scheduled_time" ∈ merged2.cols then
        aggregate_by_time merged2 "scheduled_time" "delay_minutes" .daily
          .mean
      else DF.empty
    ⟨[.acquire, .cleanMerge, .analyze, .visualize], true, merged, delayStats,
      snowyTTest, tempCorr, dailyAgg⟩

/-! ## Python aliasing model for the in-place cleaner methods

`clean_train_delays` and `clean_weather_data` mutate the DataFrame object
the caller passed (`df[col] = ...` column assignment,
`drop_duplicates(inplace=True)`, `dropna(inplace=True)`) and `return df`.
A Python heap is modelled as a map from object ids to frames; the methods
take a reference, update the heap at that same id, and return the same
reference, so every alias of the argument observes the cleaned data. -/

/-- The heap-level effect of `DataCleaner.clean_train_delays`: returns the
reference it was given and updates the referenced object in place. -/
def clean_train_delays_onHeap (pN : String → Option Rat)
    (pT : String → Option Int) (heap : Nat → DF) (ref : Nat) :
    Nat × (Nat → DF) :=
  (ref, fun j => if j = ref then clean_train_delays pN pT (heap ref)
    else heap j)

/-- The heap-level effect of `DataCleaner.clean_weather_data`. -/
def clean_weather_data_onHeap (pN : String → Option Rat)
    (pT : String → Option Int) (heap : Nat → DF) (ref : Nat) :
    Nat × (Nat → DF) :=
  (ref, fun j => if j = ref then clean_weather_data pN pT (heap ref)
    else heap j)

/-! ## Concrete tables from the repository

Timestamps are seconds since the Unix epoch: 2023-01-15 00:00:00 is
1673740800, and each further day adds 86400. -/

/-- A concrete instance of the pandas numeric parser for the sample data:
none of the repository's raw string cells is numeric text, so the trivial
parser agrees with pandas on every string that actually occurs. -/
def demoParseN : String → Option Rat := fun _ => none

/-- A concrete instance of the pandas datetime parser, tabulating exactly
the datetime strings occurring in the repository's sample tables. -/
def demoParseT (s : String) : Option Int :=
  (([("2023-01-15 08:00:00", 1673769600),
     ("2023-01-15 08:05:00", 1673769900),
     ("2023-01-15 10:30:00", 1673778600),
     ("2023-01-16 08:00:00", 1673856000),
     ("2023-01-16 08:10:00", 1673856600),
     ("2023-01-16 10:30:00", 1673865000),
     ("2023-01-16 10:35:00", 1673865300),
     ("2023-01-17 08:00:00", 1673942400),
     ("2023-01-17 12:00:00", 1673956800),
     ("2023-01-17 12:15:00", 1673957700),
     ("2023-01-18 09:00:00", 1674032400),
     ("2023-01-18 09:02:00", 1674032520),
     ("2023-01-18 14:00:00", 1674050400),
     ("2023-01-18 14:20:00", 1674051600),
     ("2023-01-15", 1673740800),
     ("2023-01-16", 1673827200),
     ("2023-01-17", 1673913600),
     ("2023-01-18", 1674000000)] : List (String × Int)).find?
    (fun p => p.1 == s)).map Prod.snd

/-- The six-row merged sample table built in statistical_model.py's
self-test (lines 145-156): `scheduled_time` and `date` are converted with
`pd.to_datetime`, `actual_time` remains a string, delays are
`[5, 0, 10, 5, 0, 15]`. -/
def dummyMergedAnalyzer : DF :=
  ⟨["train_id", "scheduled_time", "actual_time", "delay_minutes", "route",
    "date", "temperature", "weather_condition"],
   [[("train_id", .str "R123"), ("scheduled_time", .time 1673769600),
     ("actual_time", .str "2023-01-15 08:05:00"), ("delay_minutes", .num 5),
     ("route", .str "Ostrava-Frenstat"), ("date", .time 1673740800),
     ("temperature", .num (5/2)), ("weather_condition", .str "cloudy")],
    [("train_id", .str "EC456"), ("scheduled_time", .time 1673778600),
     ("actual_time", .str "2023-01-15 10:30:00"), ("delay_minutes", .num 0),
     ("route", .str "Ostrava-Frydlant"), ("date", .time 1673740800),
     ("temperature", .num 3), ("weather_condition", .str "sunny")],
    [("train_id", .str "R123"), ("scheduled_time", .time 1673856000),
     ("actual_time", .str "2023-01-16 08:10:00"), ("delay_minutes", .num 10),
     ("route", .str "Ostrava-Frenstat"), ("date", .time 1673827200),
     ("temperature", .num (-1)), ("weather_condition", .str "snowy")],
    [("train_id", .str "EC456"), ("scheduled_time", .time 1673865000),
     ("actual_time", .str "2023-01-16 10:35:00"), ("delay_minutes", .num 5),
     ("route", .str "Ostrava-Frydlant"), ("date", .time 1673827200),
     ("temperature", .num 0), ("weather_condition", .str "snowy")],
    [("train_id", .str "R123"), ("scheduled_time", .time 1673942400),
     ("actual_time", .str "2023-01-17 08:00:00"), ("delay_minutes", .num 0),
     ("route", .str "Ostrava-Frenstat"), ("date", .time 1673913600),
     ("temperature", .num 5), ("weather_condition", .str "rainy")],
    [("train_id", .str "R123"), ("scheduled_time", .time 1673956800),
     ("actual_time", .str "2023-01-17 12:15:00"), ("delay_minutes", .num 15),
     ("route", .str "Ostrava-Frenstat"), ("date", .time 1673913600),
     ("temperature", .num 6), ("weather_condition", .str "rainy")]]⟩

/-- The eight-row raw train table hard-coded in main.py (lines 80-89). -/
def dummyTrainMain : DF :=
  ⟨["train_id", "scheduled_time", "actual_time", "delay_minutes", "route",
    "date"],
   [[("train_id", .str "R123"), ("scheduled_time", .str "2023-01-15 08:00:00"),
     ("actual_time", .str "2023-01-15 08:05:00"), ("delay_minutes", .num 5),
     ("route", .str "Ostrava-Frenstat"), ("date", .str "2023-01-15")],
    [("train_id", .str "EC456"), ("scheduled_time", .str "2023-01-15 10:30:00"),
     ("actual_time", .str "2023-01-15 10:30:00"), ("delay_minutes", .num 0),
     ("route", .str "Ostrava-Frydlant"), ("date", .str "2023-01-15")],
    [("train_id", .str "R123"), ("scheduled_time", .str "2023-01-16 08:00:00"),
     ("actual_time", .str "2023-01-16 08:10:00"), ("delay_minutes", .num 10),
     ("route", .str "Ostrava-Frenstat"), ("date", .str "2023-01-16")],
    [("train_id", .str "EC456"), ("scheduled_time", .str "2023-01-16 10:30:00"),
     ("actual_time", .str "2023-01-16 10:35:00"), ("delay_minutes", .num 5),
     ("route", .str "Ostrava-Frydlant"), ("date", .str "2023-01-16")],
    [("train_id", .str "R123"), ("scheduled_time", .str "2023-01-17 08:00:00"),
     ("actual_time", .str "2023-01-17 08:00:00"), ("delay_minutes", .num 0),
     ("route", .str "Ostrava-Frenstat"), ("date", .str "2023-01-17")],
    [("train_id", .str "R123"), ("scheduled_time", .str "2023-01-17 12:00:00"),
     ("actual_time", .str "2023-01-17 12:15:00"), ("delay_minutes", .num 15),
     ("route", .str "Ostrava-Frenstat"), ("date", .str "2023-01-17")],
    [("train_id", .str "EC456"), ("scheduled_time", .str "2023-01-18 09:00:00"),
     ("actual_time", .str "2023-01-18 09:02:00"), ("delay_minutes", .num 2),
     ("route", .str "Ostrava-Frydlant"), ("date", .str "2023-01-18")],
    [("train_id", .str "R123"), ("scheduled_time", .str "2023-01-18 14:00:00"),
     ("actual_time", .str "2023-01-18 14:20:00"), ("delay_minutes", .num 20),
     ("route", .str "Ostrava-Frenstat"), ("date", .str "2023-01-18")]]⟩

/-- The four-row raw weather table hard-coded in main.py (lines 92-97). -/
def dummyWeatherMain : DF :=
  ⟨["date", "temperature", "humidity", "wind_speed", "precipitation",
    "weather_condition"],
   [[("date", .str "2023-01-15"), ("temperature", .num (5/2)),
     ("humidity", .num 85), ("wind_speed", .num 15),
     ("precipitation", .num (1/2)), ("weather_condition", .str "cloudy")],
    [("date", .str "2023-01-16"), ("temperature", .num (-1)),
     ("humidity", .num 90), ("wind_speed", .num 20),
     ("precipitation", .num 2), ("weather_condition", .str "snowy")],
    [("date", .str "2023-01-17"), ("temperature", .num 5),
     ("humidity", .num 70), ("wind_speed", .num 10),
     ("precipitation", .num 0), ("weather_condition", .str "rainy")],
    [("date", .str "2023-01-18"), ("temperature", .num 3),
     ("humidity", .num 75), ("wind_speed", .num 12),
     ("precipitation", .num 0),
     ("weather_condition", .str "partly cloudy")]]⟩

/-- The five-row raw train table in cleaner.py's self-test (lines 116-122);
the last row has a missing (`None`) delay. -/
def dummyTrainCleaner : DF :=
  ⟨["train_id", "scheduled_time", "actual_time", "delay_minutes", "route",
    "date"],
   [[("train_id", .str "R123"), ("scheduled_time", .str "2023-01-15 08:00:00"),
     ("actual_time", .str "2023-01-15 08:05:00"), ("delay_minutes", .num 5),
     ("route", .str "Ostrava-Frenstat"), ("date", .str "2023-01-15")],
    [("train_id", .str "EC456"), ("scheduled_time", .str "2023-01-15 10:30:00"),
     ("actual_time", .str "2023-01-15 10:30:00"), ("delay_minutes", .num 0),
     ("route", .str "Ostrava-Frydlant"), ("date", .str "2023-01-15")],
    [("train_id", .str "R123"), ("scheduled_time", .str "2023-01-16 08:00:00"),
     ("actual_time", .str "2023-01-16 08:10:00"), ("delay_minutes", .num 10),
     ("route", .str "Ostrava-Frenstat"), ("date", .str "2023-01-16")],
    [("train_id", .str "EC456"), ("scheduled_time", .str "2023-01-16 10:30:00"),
     ("actual_time", .str "2023-01-16 10:35:00"), ("delay_minutes", .num 5),
     ("route", .str "Ostrava-Frydlant"), ("date", .str "2023-01-16")],
    [("train_id", .str "R123"), ("scheduled_time", .str "2023-01-17 08:00:00"),
     ("actual_time", .str "2023-01-17 08:00:00"), ("delay_minutes", .null),
     ("route", .str "Ostrava-Frenstat"), ("date", .str "2023-01-17")]]⟩

/-- The four-row raw weather table in cleaner.py's self-test
(lines 124-129). -/
def dummyWeatherCleaner : DF :=
  ⟨["date", "temperature", "humidity", "wind_speed", "precipitation"],
   [[("date", .str "2023-01-15"), ("temperature", .num (5/2)),
     ("humidity", .num 85), ("wind_speed", .num 15),
     ("precipitation", .num (1/2))],
    [("date", .str "2023-01-16"), ("temperature", .num (-1)),
     ("humidity", .num 90), ("wind_speed", .num 20),
     ("precipitation", .num 2)],
    [("date", .str "2023-01-17"), ("temperature", .num 5),
     ("humidity", .num 70), ("wind_speed", .num 10),
     ("precipitation", .num 0)],
    [("date", .str "2023-01-18"), ("temperature", .num 3),
     ("humidity", .num 75), ("wind_speed", .num 12),
     ("precipitation", .num 0)]]⟩

/-- A lookup result that a numeric pandas column can hold: a number or NaN. -/
def NumOrNull (oc : Option Cell) : Prop :=
  (∃ q : Rat, oc = some (Cell.num q)) ∨ oc = some Cell.null

/-! ## Concrete inputs for witnesses and counterexamples -/

/-- One-column weather table with a single fully non-null row. -/
def wdfC3 : DF := ⟨["temperature"], [[("temperature", Cell.num 1)]]⟩

/-- Table with two groups of two observations each. -/
def dfC4w : DF :=
  ⟨["g", "v"],
   [[("g", Cell.num 1), ("v", Cell.num 10)],
    [("g", Cell.num 1), ("v", Cell.num 20)],
    [("g", Cell.num 2), ("v", Cell.num 1)],
    [("g", Cell.num 2), ("v", Cell.num 2)]]⟩

/-- A geometry collection with no CRS tag (`gdf.crs` is `None`). -/
def gdfC7ce : GeoDF := ⟨⟨["a"], [[("a", Cell.num 1)]]⟩, [⟨1, 2⟩], none⟩

/-- A geometry collection tagged with the Czech grid EPSG:5514. -/
def gdfC7w : GeoDF := ⟨⟨["a"], [[("a", Cell.num 1)]]⟩, [⟨3, 4⟩],
  some "EPSG:5514"⟩

/-- A stand-in for the pyproj reprojection kernel, for concrete runs. -/
def demoReproject : String → String → GeoPoint → GeoPoint :=
  fun _ _ p => ⟨p.y, p.x⟩

/-- Left-merge input with one row. -/
def trainC1ce : DF :=
  ⟨["date", "delay_minutes"],
   [[("date", Cell.num 1), ("delay_minutes", Cell.num 7)]]⟩

/-- Right-merge input with two rows carrying the same date key. -/
def weatherC1ce : DF :=
  ⟨["date", "temperature"],
   [[("date", Cell.num 1), ("temperature", Cell.num 2)],
    [("date", Cell.num 1), ("temperature", Cell.num 3)]]⟩

/-- One-row delay table for the C1 witness. -/
def trainC1w : DF :=
  ⟨["date", "delay_minutes"],
   [[("date", Cell.time 100), ("delay_minutes", Cell.num 1)]]⟩

/-- One-row weather table, with a non-matching date, for the C1 witness. -/
def weatherC1w : DF :=
  ⟨["date", "temperature"],
   [[("date", Cell.time 200), ("temperature", Cell.num 7)]]⟩

/-- Raw train table that already carries a `day_of_week` column; its two
rows differ only there. -/
def dfC2ce : DF :=
  ⟨["delay_minutes", "scheduled_time", "day_of_week"],
   [[("delay_minutes", Cell.num 1), ("scheduled_time", Cell.time 0),
     ("day_of_week", Cell.num 0)],
    [("delay_minutes", Cell.num 1), ("scheduled_time", Cell.time 0),
     ("day_of_week", Cell.num 5)]]⟩

/-- One-row raw train table with a missing delay, for the C2 witness. -/
def dfC2w : DF :=
  ⟨["delay_minutes", "scheduled_time"],
   [[("delay_minutes", Cell.null),
     ("scheduled_time", Cell.str "2023-01-15 08:00:00")]]⟩

/-- Table whose `latitude` holds a non-null, non-numeric value. -/
def dfC9ce : DF :=
  ⟨["latitude", "longitude"],
   [[("latitude", Cell.str "forty-nine"), ("longitude", Cell.num 18)]]⟩

/-- Station table with one numeric-coordinate row and one row with missing
coordinates, as in the spatial processor's self-test. -/
def dfC9w : DF :=
  ⟨["station_name", "latitude", "longitude"],
   [[("station_name", Cell.str "Ostrava hl.n."),
     ("latitude", Cell.num (498465/10000)),
     ("longitude", Cell.num (182917/10000))],
    [("station_name", Cell.str "Undefined"), ("latitude", Cell.null),
     ("longitude", Cell.null)]]⟩


/-! ## Lemmas and claim theorems -/

@[simp] theorem rowGet_nil (c : String) : rowGet [] c = none := rfl

theorem rowGet_cons (p : String × Cell) (r : Row) (c : String) :
    rowGet (p :: r) c = if p.1 = c then some p.2 else rowGet r c := rfl

@[simp] theorem rowKeys_nil : rowKeys [] = [] := rfl

@[simp] theorem rowKeys_cons (p : String × Cell) (r : Row) :
    rowKeys (p :: r) = p.1 :: rowKeys r := rfl

theorem rowGet_eq_none_of_not_mem (r : Row) (c : String) (h : c ∉ rowKeys r) :
    rowGet r c = none := by
  induction r with
  | nil => rfl
  | cons p r ih =>
    rw [rowGet_cons]
    rw [rowKeys_cons, List.mem_cons, not_or] at h
    rw [if_neg (fun hc => h.1 hc.symm)]
    exact ih h.2

theorem rowGet_isSome_of_mem (r : Row) (c : String) (h : c ∈ rowKeys r) :
    (rowGet r c).isSome := by
  induction r with
  | nil => simp at h
  | cons p r ih =>
    rw [rowGet_cons]
    by_cases hc : p.1 = c
    · rw [if_pos hc]; rfl
    · rw [if_neg hc]
      rw [rowKeys_cons, List.mem_cons] at h
      exact ih (h.resolve_left (fun hh => hc hh.symm))

theorem rowGet_append (r₁ r₂ : Row) (c : String) :
    rowGet (r₁ ++ r₂) c =
      match rowGet r₁ c with
      | some v => some v
      | none => rowGet r₂ c := by
  induction r₁ with
  | nil => rfl
  | cons p r ih =>
    rw [List.cons_append, rowGet_cons, rowGet_cons]
    by_cases hc : p.1 = c
    · rw [if_pos hc, if_pos hc]
    · rw [if_neg hc, if_neg hc, ih]

theorem rowGet_append_of_some (r₁ r₂ : Row) (c : String) (v : Cell)
    (h : rowGet r₁ c = some v) : rowGet (r₁ ++ r₂) c = some v := by
  rw [rowGet_append, h]

theorem rowGet_append_of_none (r₁ r₂ : Row) (c : String)
    (h : rowGet r₁ c = none) : rowGet (r₁ ++ r₂) c = rowGet r₂ c := by
  rw [rowGet_append, h]

theorem rowKeys_replaceAt (c : String) (v : Cell) (r : Row) :
    rowKeys (replaceAt c v r) = rowKeys r := by
  induction r with
  | nil => rfl
  | cons p r ih =>
    simp only [replaceAt, List.map_cons, rowKeys_cons] at *
    by_cases hc : p.1 = c
    · rw [if_pos hc, ih]; simp [hc]
    · rw [if_neg hc, ih]

theorem rowGet_replaceAt_self (c : String) (v : Cell) (r : Row)
    (h : c ∈ rowKeys r) : rowGet (replaceAt c v r) c = some v := by
  induction r with
  | nil => simp at h
  | cons p r ih =>
    simp only [replaceAt, List.map_cons]
    by_cases hc : p.1 = c
    · rw [if_pos hc, rowGet_cons, if_pos rfl]
    · rw [if_neg hc, rowGet_cons, if_neg hc]
      rw [rowKeys_cons, List.mem_cons] at h
      exact ih (h.resolve_left (fun hh => hc hh.symm))

theorem rowGet_replaceAt_ne (c c' : String) (v : Cell) (r : Row)
    (h : c' ≠ c) : rowGet (replaceAt c v r) c' = rowGet r c' := by
  induction r with
  | nil => rfl
  | cons p r ih =>
    simp only [replaceAt, List.map_cons]
    by_cases hc : p.1 = c
    · rw [if_pos hc, rowGet_cons, rowGet_cons, if_neg (fun hh => h hh.symm),
        if_neg (fun hh => h (hc ▸ hh).symm)]
      exact ih
    · rw [if_neg hc, rowGet_cons, rowGet_cons]
      by_cases hc' : p.1 = c'
      · rw [if_pos hc', if_pos hc']
      · rw [if_neg hc', if_neg hc']; exact ih

theorem DF.setCol_cols_of_mem (df : DF) (c : String) (f : Row → Cell)
    (h : c ∈ df.cols) : (df.setCol c f).cols = df.cols := by
  rw [DF.setCol, if_pos h]

theorem DF.setCol_WF (df : DF) (c : String) (f : Row → Cell) (h : df.WF) :
    (df.setCol c f).WF := by
  rw [DF.setCol]
  split
  · intro r hr
    obtain ⟨r₀, hr₀, rfl⟩ := List.mem_map.mp hr
    rw [rowKeys_replaceAt]
    exact h r₀ hr₀
  · intro r hr
    obtain ⟨r₀, hr₀, rfl⟩ := List.mem_map.mp hr
    show rowKeys (r₀ ++ [(c, f r₀)]) = df.cols ++ [c]
    rw [rowKeys, List.map_append, ← rowKeys, h r₀ hr₀]
    rfl

theorem DF.maybeSetCol_cols (df : DF) (c : String) (f : Row → Cell) :
    (df.maybeSetCol c f).cols = df.cols := by
  rw [DF.maybeSetCol]
  split
  · exact df.setCol_cols_of_mem c f (by assumption)
  · rfl

theorem DF.maybeSetCol_WF (df : DF) (c : String) (f : Row → Cell)
    (h : df.WF) : (df.maybeSetCol c f).WF := by
  rw [DF.maybeSetCol]
  split
  · exact df.setCol_WF c f h
  · exact h

/-- Row-level description of `setCol` on a well-formed frame: every new row
comes from an old row, holds `f` of that old row at column `c`, and agrees
with it everywhere else. -/
theorem rowGet_setCol (df : DF) (c : String) (f : Row → Cell) (hWF : df.WF) :
    ∀ r' ∈ (df.setCol c f).rows, ∃ r ∈ df.rows,
      rowGet r' c = some (f r) ∧
      ∀ c', c' ≠ c → rowGet r' c' = rowGet r c' := by
  intro r' hr'
  rw [DF.setCol] at hr'
  by_cases hc : c ∈ df.cols
  · rw [if_pos hc] at hr'
    obtain ⟨r, hr, rfl⟩ := List.mem_map.mp hr'
    refine ⟨r, hr, ?_, ?_⟩
    · exact rowGet_replaceAt_self c (f r) r ((hWF r hr) ▸ hc)
    · intro c' hc'
      exact rowGet_replaceAt_ne c c' (f r) r hc'
  · rw [if_neg hc] at hr'
    obtain ⟨r, hr, rfl⟩ := List.mem_map.mp hr'
    refine ⟨r, hr, ?_, ?_⟩
    · rw [rowGet_append_of_none r _ c
        (rowGet_eq_none_of_not_mem r c ((hWF r hr) ▸ hc)),
        rowGet_cons, if_pos rfl]
    · intro c' hc'
      rw [rowGet_append]
      cases h : rowGet r c' with
      | some v => rfl
      | none => rw [rowGet_cons, if_neg (fun hh => hc' hh.symm)]; rfl

/-- Same description for the guarded assignment, given the column exists. -/
theorem rowGet_maybeSetCol_self (df : DF) (c : String) (f : Row → Cell)
    (hWF : df.WF) (hc : c ∈ df.cols) :
    ∀ r' ∈ (df.maybeSetCol c f).rows, ∃ r ∈ df.rows,
      rowGet r' c = some (f r) ∧
      ∀ c', c' ≠ c → rowGet r' c' = rowGet r c' := by
  rw [DF.maybeSetCol, if_pos hc]
  exact rowGet_setCol df c f hWF

/-- A guarded assignment to one column leaves every other column's values
untouched, row by row. -/
theorem rowGet_maybeSetCol_ne (df : DF) (c : String) (f : Row → Cell)
    (c' : String) (hne : c' ≠ c) :
    ∀ r' ∈ (df.maybeSetCol c f).rows, ∃ r ∈ df.rows,
      rowGet r' c' = rowGet r c' := by
  intro r' hr'
  rw [DF.maybeSetCol] at hr'
  by_cases hmem : c ∈ df.cols
  · rw [if_pos hmem, DF.setCol] at hr'
    by_cases hmem' : c ∈ df.cols
    · rw [if_pos hmem'] at hr'
      obtain ⟨r, hr, rfl⟩ := List.mem_map.mp hr'
      exact ⟨r, hr, rowGet_replaceAt_ne c c' (f r) r hne⟩
    · rw [if_neg hmem'] at hr'
      obtain ⟨r, hr, rfl⟩ := List.mem_map.mp hr'
      refine ⟨r, hr, ?_⟩
      rw [rowGet_append]
      cases h : rowGet r c' with
      | some v => rfl
      | none => rw [rowGet_cons, if_neg (fun hh => hne hh.symm)]; rfl
  · rw [if_neg hmem] at hr'
    exact ⟨r', hr', rfl⟩

/-- Predicate transport through a guarded assignment to another column. -/
theorem forall_rowGet_maybeSetCol_ne (df : DF) (c : String) (f : Row → Cell)
    (c' : String) (hne : c' ≠ c) (P : Option Cell → Prop)
    (H : ∀ r ∈ df.rows, P (rowGet r c')) :
    ∀ r' ∈ (df.maybeSetCol c f).rows, P (rowGet r' c') := by
  intro r' hr'
  obtain ⟨r, hr, he⟩ := rowGet_maybeSetCol_ne df c f c' hne r' hr'
  rw [he]
  exact H r hr

/-! ## General lemmas -/

theorem dedupKeepFirstGo_subset {α : Type} [DecidableEq α] :
    ∀ (fuel : Nat) (l : List α), ∀ a ∈ dedupKeepFirstGo fuel l, a ∈ l := by
  intro fuel
  induction fuel with
  | zero =>
    intro l a ha
    cases l with
    | nil => exact absurd ha (List.not_mem_nil a)
    | cons b l => exact absurd ha (List.not_mem_nil a)
  | succ fuel ih =>
    intro l a ha
    cases l with
    | nil => exact absurd ha (List.not_mem_nil a)
    | cons b l =>
      rcases List.mem_cons.mp ha with h | h
      · exact h ▸ List.mem_cons_self b l
      · exact List.mem_cons_of_mem b (List.mem_of_mem_filter (ih _ a h))

theorem dedupKeepFirst_subset {α : Type} [DecidableEq α] (l : List α) :
    ∀ a ∈ dedupKeepFirst l, a ∈ l :=
  dedupKeepFirstGo_subset l.length l

theorem dedupKeepFirstGo_pairwise {α : Type} [DecidableEq α] :
    ∀ (fuel : Nat) (l : List α),
      (dedupKeepFirstGo fuel l).Pairwise (· ≠ ·) := by
  intro fuel
  induction fuel with
  | zero =>
    intro l
    cases l with
    | nil => exact List.Pairwise.nil
    | cons b l => exact List.Pairwise.nil
  | succ fuel ih =>
    intro l
    cases l with
    | nil => exact List.Pairwise.nil
    | cons b l =>
      refine List.Pairwise.cons ?_ (ih _)
      intro a ha hba
      have := List.of_mem_filter (dedupKeepFirstGo_subset _ _ a ha)
      exact (of_decide_eq_true this) hba.symm

theorem dedupKeepFirst_pairwise {α : Type} [DecidableEq α] (l : List α) :
    (dedupKeepFirst l).Pairwise (· ≠ ·) :=
  dedupKeepFirstGo_pairwise l.length l

theorem length_flatMap_of_one {α β : Type} (l : List α) (f : α → List β)
    (h : ∀ x ∈ l, (f x).length = 1) :
    (l.flatMap f).length = l.length := by
  induction l with
  | nil => rfl
  | cons a l ih =>
    rw [List.flatMap_cons, List.length_append, List.length_cons,
      h a (List.mem_cons_self a l),
      ih (fun x hx => h x (List.mem_cons_of_mem a hx)), Nat.add_comm]

theorem length_filter_le_one_of_pairwise {α β : Type} [DecidableEq β]
    (l : List α) (f : α → Option β)
    (hp : l.Pairwise (fun a b => f a ≠ f b)) (v : Option β) :
    (l.filter (fun x => decide (f x = v))).length ≤ 1 := by
  induction l with
  | nil => exact Nat.zero_le 1
  | cons a l ih =>
    have hpa := List.pairwise_cons.mp hp
    rw [List.filter_cons]
    split
    · have hav : f a = v := of_decide_eq_true (by assumption)
      have : l.filter (fun x => decide (f x = v)) = [] := by
        rw [List.filter_eq_nil_iff]
        intro x hx hfx
        exact hpa.1 x hx (hav.trans (of_decide_eq_true hfx).symm)
      rw [this]
      exact Nat.le_refl 1
    · exact Nat.le_trans (ih hpa.2) (Nat.le_refl 1)

theorem rowGet_nullPad (cs : List String) (c : String) (h : c ∈ cs) :
    rowGet (cs.map (fun c => (c, Cell.null))) c = some Cell.null := by
  induction cs with
  | nil => simp at h
  | cons b cs ih =>
    rw [List.map_cons, rowGet_cons]
    by_cases hb : b = c
    · rw [if_pos hb]
    · rw [if_neg hb]
      exact ih (List.mem_cons.mp h |>.resolve_left fun hh => hb hh.symm)

theorem extendRow_inj (c : String) (g : Row → Cell) (r₁ r₂ : Row)
    (h : r₁ ++ [(c, g r₁)] = r₂ ++ [(c, g r₂)]) : r₁ = r₂ := by
  have hlen : r₁.length = r₂.length := by
    have := congrArg List.length h
    simpa using this
  exact (List.append_inj h hlen).1

theorem forall₂_filterMap_of_isSome {α β : Type} (l : List α)
    (f : α → Option β) (h : ∀ x ∈ l, (f x).isSome = true) :
    List.Forall₂ (fun x y => f x = some y) l (l.filterMap f) := by
  induction l with
  | nil => exact List.Forall₂.nil
  | cons a l ih =>
    rw [List.filterMap_cons]
    cases hfa : f a with
    | none =>
      exact absurd (hfa ▸ h a (List.mem_cons_self a l)) (by simp)
    | some b =>
      exact List.Forall₂.cons hfa
        (ih (fun x hx => h x (List.mem_cons_of_mem a hx)))

theorem cleanTrainCoerced_cols (pN : String → Option Rat)
    (pT : String → Option Int) (df : DF) :
    (cleanTrainCoerced pN pT df).cols = df.cols := by
  simp only [cleanTrainCoerced, DF.maybeSetCol_cols]

theorem cleanTrainFilled_cols (pN : String → Option Rat)
    (pT : String → Option Int) (df : DF) :
    (cleanTrainFilled pN pT df).cols = df.cols := by
  simp only [cleanTrainFilled, DF.maybeSetCol_cols, cleanTrainCoerced_cols]

theorem cleanTrainDeduped_cols (pN : String → Option Rat)
    (pT : String → Option Int) (df : DF) :
    (cleanTrainDeduped pN pT df).cols = df.cols := by
  show (cleanTrainFilled pN pT df).cols = df.cols
  exact cleanTrainFilled_cols pN pT df

theorem cleanTrainCoerced_WF (pN : String → Option Rat)
    (pT : String → Option Int) (df : DF) (h : df.WF) :
    (cleanTrainCoerced pN pT df).WF := by
  simp only [cleanTrainCoerced]
  exact DF.maybeSetCol_WF _ _ _ (DF.maybeSetCol_WF _ _ _
    (DF.maybeSetCol_WF _ _ _ (DF.maybeSetCol_WF _ _ _ h)))

theorem cleanTrainFilled_WF (pN : String → Option Rat)
    (pT : String → Option Int) (df : DF) (h : df.WF) :
    (cleanTrainFilled pN pT df).WF := by
  simp only [cleanTrainFilled]
  exact DF.maybeSetCol_WF _ _ _ (cleanTrainCoerced_WF pN pT df h)

theorem cleanTrainDeduped_WF (pN : String → Option Rat)
    (pT : String → Option Int) (df : DF) (h : df.WF) :
    (cleanTrainDeduped pN pT df).WF := by
  intro r hr
  exact cleanTrainFilled_WF pN pT df h r
    (dedupKeepFirst_subset _ r hr)

theorem toNumericCell_numOrNull (pN : String → Option Rat)
    (oc : Option Cell) : NumOrNull (some (toNumericCell pN oc)) := by
  match oc with
  | some (.num q) => exact Or.inl ⟨q, rfl⟩
  | some (.str s) =>
    rw [toNumericCell]
    cases pN s with
    | some q => exact Or.inl ⟨q, rfl⟩
    | none => exact Or.inr rfl
  | some (.time t) => exact Or.inl ⟨(t : Rat), rfl⟩
  | some .null => exact Or.inr rfl
  | none => exact Or.inr rfl

theorem fillCell_of_numOrNull (oc : Option Cell) (h : NumOrNull oc) :
    ∃ q : Rat, fillCell (Cell.num 0) oc = Cell.num q := by
  rcases h with ⟨q, hq⟩ | hn
  · exact ⟨q, by rw [hq]; rfl⟩
  · exact ⟨0, by rw [hn]; rfl⟩

/-- After coercion and fill, every row of a frame that had a
`delay_minutes` column holds a number there. -/
theorem cleanTrainFilled_delay (pN : String → Option Rat)
    (pT : String → Option Int) (df : DF) (hWF : df.WF)
    (hdm : "delay_minutes" ∈ df.cols) :
    ∀ r ∈ (cleanTrainFilled pN pT df).rows,
      ∃ q : Rat, rowGet r "delay_minutes" = some (Cell.num q) := by
  have h1 : ∀ r ∈ (df.maybeSetCol "delay_minutes"
      (fun r => toNumericCell pN (rowGet r "delay_minutes"))).rows,
      NumOrNull (rowGet r "delay_minutes") := by
    intro r hr
    obtain ⟨r₀, _, he, _⟩ :=
      rowGet_maybeSetCol_self df "delay_minutes" _ hWF hdm r hr
    rw [he]
    exact toNumericCell_numOrNull pN _
  have h2 := forall_rowGet_maybeSetCol_ne _ "scheduled_time"
    (fun r => toDatetimeCell pT (rowGet r "scheduled_time"))
    "delay_minutes" (by decide) NumOrNull h1
  have h3 := forall_rowGet_maybeSetCol_ne _ "actual_time"
    (fun r => toDatetimeCell pT (rowGet r "actual_time"))
    "delay_minutes" (by decide) NumOrNull h2
  have h4 : ∀ r ∈ (cleanTrainCoerced pN pT df).rows,
      NumOrNull (rowGet r "delay_minutes") := by
    simp only [cleanTrainCoerced]
    exact forall_rowGet_maybeSetCol_ne _ "date"
      (fun r => toDatetimeCell pT (rowGet r "date"))
      "delay_minutes" (by decide) NumOrNull h3
  intro r hr
  rw [cleanTrainFilled] at hr
  obtain ⟨r₄, hr₄, he, _⟩ := rowGet_maybeSetCol_self
    (cleanTrainCoerced pN pT df) "delay_minutes" _
    (cleanTrainCoerced_WF pN pT df hWF)
    ((cleanTrainCoerced_cols pN pT df) ▸ hdm) r hr
  rw [he]
  obtain ⟨q, hq⟩ := fillCell_of_numOrNull _ (h4 r₄ hr₄)
  exact ⟨q, by rw [hq]⟩

/-- C3: for every raw weather table, the table returned by
`clean_weather_data` contains zero null cells — every surviving row has all
fields non-null (rows with a null in any column were dropped by
`dropna()`). -/
theorem spec_C3 (pN : String → Option Rat) (pT : String → Option Int)
    (df : DF) : ∀ r ∈ (clean_weather_data pN pT df).rows,
      ∀ p ∈ r, p.2 ≠ Cell.null := by
  intro r hr p hp
  simp only [clean_weather_data] at hr
  have h := (List.mem_filter.mp hr).2
  rw [Bool.not_eq_true'] at h
  unfold rowHasNull at h
  intro hnull
  exact (List.any_eq_false.mp h p hp) (decide_eq_true hnull)

/-- Witness for C3 at a concrete weather table. -/
theorem spec_C3_witness :
    [("temperature", Cell.num 1)]
        ∈ (clean_weather_data demoParseN demoParseT wdfC3).rows ∧
    (("temperature", Cell.num 1) : String × Cell).2 ≠ Cell.null :=
  ⟨by decide, spec_C3 demoParseN demoParseT wdfC3
    [("temperature", Cell.num 1)] (by decide)
    ("temperature", Cell.num 1) (by decide)⟩

/-- C4: on a table where the group and value columns exist and the value
column is numeric, `perform_t_test` returns `None` whenever either selected
group has fewer than 2 (non-null) observations, and returns a
(t-statistic, p-value) pair whenever both have at least 2.  The embedding
is total, so no exception is raised on any input. -/
theorem spec_C4 (ttest : List Rat → List Rat → Rat × Rat) (df : DF)
    (group_col value_col : String) (g1 g2 : Cell)
    (hg : group_col ∈ df.cols) (hv : value_col ∈ df.cols)
    (hnum : df.isNumericCol value_col = true) :
    ((ttestGroup df group_col value_col g1).length < 2 ∨
        (ttestGroup df group_col value_col g2).length < 2 →
      perform_t_test ttest df group_col value_col g1 g2 = none) ∧
    (2 ≤ (ttestGroup df group_col value_col g1).length →
      2 ≤ (ttestGroup df group_col value_col g2).length →
      (perform_t_test ttest df group_col value_col g1 g2).isSome = true) := by
  have hA : ¬¬(group_col ∈ df.cols ∧ value_col ∈ df.cols) :=
    not_not_intro (And.intro hg hv)
  have hB : ¬¬(df.isNumericCol value_col = true) := not_not_intro hnum
  unfold perform_t_test
  rw [if_neg hA, if_neg hB]
  simp only []
  constructor
  · intro h
    rw [if_pos h]
  · intro ha hb
    rw [if_neg (not_or.mpr ⟨Nat.not_lt.mpr ha, Nat.not_lt.mpr hb⟩)]
    rfl

/-- Witness for C4 at a concrete table with two groups of two. -/
theorem spec_C4_witness :
    ("g" ∈ dfC4w.cols ∧ "v" ∈ dfC4w.cols ∧
      dfC4w.isNumericCol "v" = true) ∧
    (((ttestGroup dfC4w "g" "v" (Cell.num 1)).length < 2 ∨
        (ttestGroup dfC4w "g" "v" (Cell.num 2)).length < 2 →
      perform_t_test (fun _ _ => (0, 0)) dfC4w "g" "v" (Cell.num 1)
        (Cell.num 2) = none) ∧
    (2 ≤ (ttestGroup dfC4w "g" "v" (Cell.num 1)).length →
      2 ≤ (ttestGroup dfC4w "g" "v" (Cell.num 2)).length →
      (perform_t_test (fun _ _ => (0, 0)) dfC4w "g" "v" (Cell.num 1)
        (Cell.num 2)).isSome = true)) :=
  ⟨⟨by decide, by decide, by decide⟩,
    spec_C4 (fun _ _ => (0, 0)) dfC4w "g" "v" (Cell.num 1) (Cell.num 2)
      (by decide) (by decide) (by decide)⟩

/-- C5: on the analyzer's six-row self-test table, daily mean aggregation
of `delay_minutes` over `scheduled_time` yields exactly one row per
calendar date present (2023-01-15/16/17), with the arithmetic means
5/2, 15/2, 15/2 of that date's delays. -/
theorem spec_C5 :
    aggregate_by_time dummyMergedAnalyzer "scheduled_time" "delay_minutes"
      Freq.daily AggFunc.mean =
    ⟨["scheduled_time", "delay_minutes"],
     [[("scheduled_time", Cell.time 1673740800),
       ("delay_minutes", Cell.num (5/2))],
      [("scheduled_time", Cell.time 1673827200),
       ("delay_minutes", Cell.num (15/2))],
      [("scheduled_time", Cell.time 1673913600),
       ("delay_minutes", Cell.num (15/2))]]⟩ := by
  decide

/-- C6: every analysis function, called with a column name absent from the
table (in either column position), returns its null/empty sentinel; the
embeddings are total, so no exception is raised. -/
theorem spec_C6 (describe : List Rat → DescStats)
    (ttest : List Rat → List Rat → Rat × Rat)
    (corrOf : CorrMethod → List (Rat × Rat) → Rat) (df : DF)
    (col other : String) (g1 g2 : Cell) (freq : Freq) (agg : AggFunc)
    (method : CorrMethod) (h : col ∉ df.cols) :
    get_descriptive_statistics describe df col = none ∧
    perform_t_test ttest df col other g1 g2 = none ∧
    perform_t_test ttest df other col g1 g2 = none ∧
    calculate_correlation corrOf df col other method = none ∧
    calculate_correlation corrOf df other col method = none ∧
    aggregate_by_time df col other freq agg = DF.empty ∧
    aggregate_by_time df other col freq agg = DF.empty := by
  refine ⟨?_, ?_, ?_, ?_, ?_, ?_, ?_⟩
  · rw [get_descriptive_statistics, if_neg (fun hc => h hc.1)]
  · rw [perform_t_test, if_pos (fun hc => h hc.1)]
  · rw [perform_t_test, if_pos (fun hc => h hc.2)]
  · rw [calculate_correlation, if_pos (fun hc => h hc.1)]
  · rw [calculate_correlation, if_pos (fun hc => h hc.2)]
  · rw [aggregate_by_time, if_pos (fun hc => h hc.1)]
  · rw [aggregate_by_time, if_pos (fun hc => h hc.2)]

/-- Witness for C6: the column "b" is absent from a one-column table. -/
theorem spec_C6_witness :
    ("b" ∉ (⟨["a"], []⟩ : DF).cols) ∧
    (get_descriptive_statistics (fun _ => ⟨0, 0, 0, 0, 0, 0, 0, 0⟩)
        ⟨["a"], []⟩ "b" = none ∧
      perform_t_test (fun _ _ => (0, 0)) ⟨["a"], []⟩ "b" "a" Cell.null
        Cell.null = none ∧
      perform_t_test (fun _ _ => (0, 0)) ⟨["a"], []⟩ "a" "b" Cell.null
        Cell.null = none ∧
      calculate_correlation (fun _ _ => 0) ⟨["a"], []⟩ "b" "a"
        CorrMethod.pearson = none ∧
      calculate_correlation (fun _ _ => 0) ⟨["a"], []⟩ "a" "b"
        CorrMethod.pearson = none ∧
      aggregate_by_time ⟨["a"], []⟩ "b" "a" Freq.daily AggFunc.mean
        = DF.empty ∧
      aggregate_by_time ⟨["a"], []⟩ "a" "b" Freq.daily AggFunc.mean
        = DF.empty) :=
  ⟨by decide,
    spec_C6 (fun _ => ⟨0, 0, 0, 0, 0, 0, 0, 0⟩) (fun _ _ => (0, 0))
      (fun _ _ => 0) ⟨["a"], []⟩ "b" "a" Cell.null Cell.null Freq.daily
      AggFunc.mean CorrMethod.pearson (by decide)⟩

/-- C7 counterexample: a geometry collection with no CRS tag (`gdf.crs` is
`None`, which is falsy) is written unchanged — the guard
`if gdf.crs and gdf.crs.to_string() != "EPSG:4326"` skips the reprojection,
so the written collection is not tagged EPSG:4326, refuting the claim that
every collection written to the web-map format is in EPSG:4326. -/
theorem spec_C7_counterexample :
    ¬((create_leaflet_geojson demoReproject gdfC7ce).crs
      = some "EPSG:4326") := by
  decide

/-- C7 (amended): for every geometry collection that carries a CRS tag,
`create_leaflet_geojson` writes it in EPSG:4326, reprojecting the
coordinates with `to_crs(epsg=4326)` whenever the tag differs from
EPSG:4326; a collection with no CRS tag is written unchanged. -/
theorem spec_C7 (reproject : String → String → GeoPoint → GeoPoint)
    (gdf : GeoDF) (h : gdf.crs ≠ none) :
    (create_leaflet_geojson reproject gdf).crs = some "EPSG:4326" ∧
    ∀ c, gdf.crs = some c → c ≠ "EPSG:4326" →
      (create_leaflet_geojson reproject gdf).geometry
        = gdf.geometry.map (reproject c "EPSG:4326") := by
  cases hc : gdf.crs with
  | none => exact absurd hc h
  | some c =>
    simp only [create_leaflet_geojson, hc]
    by_cases h4 : c = "EPSG:4326"
    · rw [if_neg (not_not_intro h4)]
      refine ⟨by rw [hc, h4], ?_⟩
      intro c' hc' hne
      cases Option.some.inj hc'
      exact absurd h4 hne
    · rw [if_pos h4]
      refine ⟨rfl, ?_⟩
      intro c' hc' _
      cases Option.some.inj hc'
      rfl

/-- Witness for C7 at a collection tagged EPSG:5514. -/
theorem spec_C7_witness :
    (gdfC7w.crs ≠ none) ∧
    ((create_leaflet_geojson demoReproject gdfC7w).crs
        = some "EPSG:4326" ∧
      ∀ c, gdfC7w.crs = some c → c ≠ "EPSG:4326" →
        (create_leaflet_geojson demoReproject gdfC7w).geometry
          = gdfC7w.geometry.map (demoReproject c "EPSG:4326")) :=
  ⟨by decide, spec_C7 demoReproject gdfC7w (by decide)⟩

/-- C10: both cleaner methods mutate the frame object the caller passed
(in-place column assignments, `drop_duplicates(inplace=True)`,
`dropna(inplace=True)`) and return that very reference, so after the call
the caller's binding — and every alias — holds the cleaned table, not the
original raw data; on the repository's own sample raw tables the cleaned
value differs from the raw one. -/
theorem spec_C10 (pN : String → Option Rat) (pT : String → Option Int)
    (heap : Nat → DF) (refT refW : Nat) :
    (clean_train_delays_onHeap pN pT heap refT).1 = refT ∧
    (clean_train_delays_onHeap pN pT heap refT).2 refT
      = clean_train_delays pN pT (heap refT) ∧
    (clean_weather_data_onHeap pN pT heap refW).1 = refW ∧
    (clean_weather_data_onHeap pN pT heap refW).2 refW
      = clean_weather_data pN pT (heap refW) ∧
    clean_train_delays demoParseN demoParseT dummyTrainCleaner
      ≠ dummyTrainCleaner ∧
    clean_weather_data demoParseN demoParseT dummyWeatherCleaner
      ≠ dummyWeatherCleaner := by
  refine ⟨rfl, ?_, rfl, ?_, by decide, by decide⟩
  · show (if refT = refT then _ else _) = _
    rw [if_pos rfl]
  · show (if refW = refW then _ else _) = _
    rw [if_pos rfl]

/-- C1 counterexample: when the weather (right) table carries two rows with
the same date, `pd.merge(..., how='left')` emits one output row per match,
so the output has more rows than the left input — the unconditional
row-count claim fails. -/
theorem spec_C1_counterexample :
    ¬((merge_data trainC1ce weatherC1ce "date").rows.length
      = trainC1ce.rows.length) := by
  decide

/-- C1 (amended): for a left merge on a key present in both tables, with
the weather table holding at most one row per key value (as a cleaned
weather table does), the output has exactly one row per delay row; and
regardless of key uniqueness, any output row whose key matches no weather
row holds null in every weather (non-key) field.  The two side conditions
(well-formed rows, schemas sharing only the key) state how actual
DataFrames of the repository's data model look. -/
theorem spec_C1 (train weather : DF) (key : String)
    (hk1 : key ∈ train.cols) (hk2 : key ∈ weather.cols)
    (hWFt : train.WF)
    (hdisj : ∀ c ∈ weather.cols, c ≠ key → c ∉ train.cols) :
    (weather.rows.Pairwise (fun a b => rowGet a key ≠ rowGet b key) →
      (merge_data train weather key).rows.length = train.rows.length) ∧
    ∀ r ∈ (merge_data train weather key).rows,
      (∀ w ∈ weather.rows, rowGet w key ≠ rowGet r key) →
      ∀ c ∈ weather.cols, c ≠ key → rowGet r c = some Cell.null := by
  have hkey : key ∈ train.cols ∧ key ∈ weather.cols := ⟨hk1, hk2⟩
  constructor
  · intro huniq
    unfold merge_data
    rw [if_pos hkey]
    apply length_flatMap_of_one
    intro tr htr
    cases hm : weather.rows.filter
        (fun wr => decide (rowGet wr key = rowGet tr key)) with
    | nil => rfl
    | cons m ms =>
      have hle := length_filter_le_one_of_pairwise weather.rows
        (fun wr => rowGet wr key) huniq (rowGet tr key)
      rw [hm, List.length_cons] at hle
      have hms : ms = [] := List.eq_nil_of_length_eq_zero
        (Nat.le_zero.mp (Nat.succ_le_succ_iff.mp hle))
      subst hms
      rfl
  · intro r hr hunmatched c hcw hck
    unfold merge_data at hr
    rw [if_pos hkey] at hr
    obtain ⟨tr, htr, hrb⟩ := List.mem_flatMap.mp hr
    have hkeys := hWFt tr htr
    have hsome : (rowGet tr key).isSome :=
      rowGet_isSome_of_mem tr key (hkeys ▸ hk1)
    obtain ⟨v, hv⟩ := Option.isSome_iff_exists.mp hsome
    cases hm : weather.rows.filter
        (fun wr => decide (rowGet wr key = rowGet tr key)) with
    | nil =>
      rw [hm] at hrb
      have hreq := List.mem_singleton.mp hrb
      have htrnone : rowGet tr c = none :=
        rowGet_eq_none_of_not_mem tr c (by
          rw [hkeys]; exact hdisj c hcw hck)
      rw [hreq, rowGet_append_of_none _ _ _ htrnone]
      refine rowGet_nullPad _ c (List.mem_filter.mpr ⟨hcw, ?_⟩)
      simp [hck]
    | cons m ms =>
      rw [hm] at hrb
      obtain ⟨wr, hwr, hreq⟩ := List.mem_map.mp hrb
      rw [← hm] at hwr
      have hwmem := List.mem_filter.mp hwr
      have hkeq : rowGet wr key = rowGet tr key := of_decide_eq_true hwmem.2
      have hrkey : rowGet r key = some v := by
        rw [← hreq]
        exact rowGet_append_of_some _ _ _ _ hv
      exact absurd (by rw [hkeq, hv, hrkey] : rowGet wr key = rowGet r key)
        (hunmatched wr hwmem.1)

/-- Witness for C1 at a one-row delay table and a non-matching one-row
weather table. -/
theorem spec_C1_witness :
    ("date" ∈ trainC1w.cols ∧ "date" ∈ weatherC1w.cols ∧ trainC1w.WF ∧
      (∀ c ∈ weatherC1w.cols, c ≠ "date" → c ∉ trainC1w.cols)) ∧
    ((weatherC1w.rows.Pairwise (fun a b =>
          rowGet a "date" ≠ rowGet b "date") →
        (merge_data trainC1w weatherC1w "date").rows.length
          = trainC1w.rows.length) ∧
      ∀ r ∈ (merge_data trainC1w weatherC1w "date").rows,
        (∀ w ∈ weatherC1w.rows, rowGet w "date" ≠ rowGet r "date") →
        ∀ c ∈ weatherC1w.cols, c ≠ "date" →
          rowGet r c = some Cell.null) :=
  ⟨⟨by decide, by decide, by decide, by decide⟩,
    spec_C1 trainC1w weatherC1w "date" (by decide) (by decide) (by decide)
      (by decide)⟩

/-- C8 (code defect): on the repository's own hard-coded sample tables the
merged table is non-empty, so the run proceeds past the empty-merge stop;
but the Visualize phase dies on an uncaught `NameError`
(`plotter.plot_correlation_heatmap` evaluates `np.number` and `plotter.py`
never imports numpy), so — contrary to the claim — the Export-Geo phase is
never executed.  (Independently, `statistical_model.py` annotates with
`Optional` without importing it, which already aborts the orchestrator's
import.)  The statement holds for every choice of the delegated scipy and
pandas numeric kernels. -/
theorem spec_C8 (ttest : List Rat → List Rat → Rat × Rat)
    (describe : List Rat → DescStats)
    (corrOf : CorrMethod → List (Rat × Rat) → Rat) :
    (run_pipeline demoParseN demoParseT ttest describe corrOf
        dummyTrainMain dummyWeatherMain).merged.rows ≠ [] ∧
    (run_pipeline demoParseN demoParseT ttest describe corrOf
        dummyTrainMain dummyWeatherMain).phases
      = [Phase.acquire, Phase.cleanMerge, Phase.analyze, Phase.visualize] ∧
    Phase.exportGeo ∉ (run_pipeline demoParseN demoParseT ttest describe
        corrOf dummyTrainMain dummyWeatherMain).phases ∧
    (run_pipeline demoParseN demoParseT ttest describe corrOf
        dummyTrainMain dummyWeatherMain).crashed = true := by
  have hcond : ((merge_data (clean_train_delays demoParseN demoParseT
        dummyTrainMain) (clean_weather_data demoParseN demoParseT
        dummyWeatherMain) "date").rows.isEmpty
      || (merge_data (clean_train_delays demoParseN demoParseT
        dummyTrainMain) (clean_weather_data demoParseN demoParseT
        dummyWeatherMain) "date").cols.isEmpty) = false := by decide
  unfold run_pipeline
  simp only [hcond, Bool.false_eq_true, if_false]
  exact ⟨by decide, True.intro, by decide, True.intro⟩

theorem DF.setCol_cols_of_not_mem (df : DF) (c : String) (f : Row → Cell)
    (h : c ∉ df.cols) : (df.setCol c f).cols = df.cols ++ [c] := by
  rw [DF.setCol, if_neg h]

/-- Assigning a fresh column keeps distinct rows distinct: the old row is
recoverable as a prefix. -/
theorem pairwise_ne_setCol_new (df : DF) (c : String) (f : Row → Cell)
    (hc : c ∉ df.cols) (hp : df.rows.Pairwise (· ≠ ·)) :
    (df.setCol c f).rows.Pairwise (· ≠ ·) := by
  rw [DF.setCol, if_neg hc]
  show (df.rows.map _).Pairwise (· ≠ ·)
  rw [List.pairwise_map]
  exact hp.imp (fun h heq => h (extendRow_inj c f _ _ heq))

/-- C2 counterexample: on a raw table that already carries a `day_of_week`
column, the derived-column assignment (which runs after
`drop_duplicates`) overwrites it with a value computed from
`scheduled_time`, and two rows that differed only in that column become
identical — the cleaned output contains duplicate rows. -/
theorem spec_C2_counterexample :
    ("delay_minutes" ∈ dfC2ce.cols ∧ dfC2ce.WF) ∧
    ¬((clean_train_delays demoParseN demoParseT dfC2ce).rows.Pairwise
      (· ≠ ·)) := by
  exact ⟨⟨by decide, by decide⟩, by decide⟩

/-- C2 (amended): for every well-formed raw train table with a
`delay_minutes` column, the cleaned table has a number (never null) in
`delay_minutes` in every row; it contains no two identical rows provided
the raw table did not already carry a `day_of_week` or `hour_of_day`
column (which the derived-column assignment would overwrite, possibly
re-creating duplicates); and every row whose `scheduled_time` holds a
valid timestamp has a `day_of_week` value in the range 0..6. -/
theorem spec_C2 (pN : String → Option Rat) (pT : String → Option Int)
    (df : DF) (hWF : df.WF) (hdm : "delay_minutes" ∈ df.cols) :
    (∀ r ∈ (clean_train_delays pN pT df).rows,
        ∃ q : Rat, rowGet r "delay_minutes" = some (Cell.num q)) ∧
    ("day_of_week" ∉ df.cols → "hour_of_day" ∉ df.cols →
        (clean_train_delays pN pT df).rows.Pairwise (· ≠ ·)) ∧
    (∀ r ∈ (clean_train_delays pN pT df).rows, ∀ t : Int,
        rowGet r "scheduled_time" = some (Cell.time t) →
        ∃ d : Rat, rowGet r "day_of_week" = some (Cell.num d)
          ∧ 0 ≤ d ∧ d ≤ 6) := by
  have hWF6 : (cleanTrainDeduped pN pT df).WF :=
    cleanTrainDeduped_WF pN pT df hWF
  have hcols6 : (cleanTrainDeduped pN pT df).cols = df.cols :=
    cleanTrainDeduped_cols pN pT df
  have hdelay6 : ∀ r ∈ (cleanTrainDeduped pN pT df).rows,
      ∃ q : Rat, rowGet r "delay_minutes" = some (Cell.num q) := by
    intro r hr
    exact cleanTrainFilled_delay pN pT df hWF hdm r
      (dedupKeepFirst_subset _ r hr)
  have hpair6 : (cleanTrainDeduped pN pT df).rows.Pairwise (· ≠ ·) :=
    dedupKeepFirst_pairwise _
  unfold clean_train_delays
  simp only []
  by_cases hst : "scheduled_time" ∈ (cleanTrainDeduped pN pT df).cols
  · rw [if_pos hst]
    have hWF7 : ((cleanTrainDeduped pN pT df).setCol "day_of_week"
        (fun r => dayOfWeekCell (rowGet r "scheduled_time"))).WF :=
      DF.setCol_WF _ _ _ hWF6
    refine ⟨?_, ?_, ?_⟩
    · intro r hr
      obtain ⟨r7, hr7, _, hagr⟩ :=
        rowGet_setCol _ "hour_of_day" _ hWF7 r hr
      rw [hagr "delay_minutes" (by decide)]
      obtain ⟨r6, hr6, _, hagr6⟩ :=
        rowGet_setCol _ "day_of_week" _ hWF6 r7 hr7
      rw [hagr6 "delay_minutes" (by decide)]
      exact hdelay6 r6 hr6
    · intro hdow hhod
      have hdow6 : "day_of_week" ∉ (cleanTrainDeduped pN pT df).cols := by
        rw [hcols6]; exact hdow
      have hhod6 : "hour_of_day" ∉ (cleanTrainDeduped pN pT df).cols := by
        rw [hcols6]; exact hhod
      have h7 := pairwise_ne_setCol_new _ "day_of_week"
        (fun r => dayOfWeekCell (rowGet r "scheduled_time")) hdow6 hpair6
      have hhod7 : "hour_of_day" ∉ ((cleanTrainDeduped pN pT df).setCol
          "day_of_week"
          (fun r => dayOfWeekCell (rowGet r "scheduled_time"))).cols := by
        rw [DF.setCol_cols_of_not_mem _ _ _ hdow6]
        intro hmem
        rcases List.mem_append.mp hmem with h | h
        · exact hhod6 h
        · exact absurd (List.mem_singleton.mp h) (by decide)
      exact pairwise_ne_setCol_new _ "hour_of_day" _ hhod7 h7
    · intro r hr t hstval
      obtain ⟨r7, hr7, hhodval, hagr⟩ :=
        rowGet_setCol _ "hour_of_day" _ hWF7 r hr
      obtain ⟨r6, hr6, hdowval, hagr6⟩ :=
        rowGet_setCol _ "day_of_week" _ hWF6 r7 hr7
      have hst7 : rowGet r7 "scheduled_time" = some (Cell.time t) := by
        rw [← hagr "scheduled_time" (by decide)]; exact hstval
      have hst6 : rowGet r6 "scheduled_time" = some (Cell.time t) := by
        rw [← hagr6 "scheduled_time" (by decide)]; exact hst7
      have hdowr : rowGet r "day_of_week"
          = some (dayOfWeekCell (rowGet r6 "scheduled_time")) := by
        rw [hagr "day_of_week" (by decide)]; exact hdowval
      rw [hst6] at hdowr
      refine ⟨(((Int.fdiv t 86400 + 3).emod 7 : Int) : Rat), ?_, ?_, ?_⟩
      · rw [hdowr]; exact rfl
      · exact_mod_cast Int.emod_nonneg _ (by decide)
      · have h7lt : (Int.fdiv t 86400 + 3).emod 7 < 7 :=
          Int.emod_lt_of_pos _ (by decide)
        have h6le : (Int.fdiv t 86400 + 3).emod 7 ≤ 6 := by omega
        exact_mod_cast h6le
  · rw [if_neg hst]
    refine ⟨hdelay6, fun _ _ => hpair6, ?_⟩
    intro r hr t hstval
    rw [rowGet_eq_none_of_not_mem r _ (by
      rw [hWF6 r hr]; exact hst)] at hstval
    cases hstval

/-- Witness for C2 at a one-row raw table with a null delay. -/
theorem spec_C2_witness :
    (dfC2w.WF ∧ "delay_minutes" ∈ dfC2w.cols) ∧
    ((∀ r ∈ (clean_train_delays demoParseN demoParseT dfC2w).rows,
        ∃ q : Rat, rowGet r "delay_minutes" = some (Cell.num q)) ∧
      ("day_of_week" ∉ dfC2w.cols → "hour_of_day" ∉ dfC2w.cols →
        (clean_train_delays demoParseN demoParseT dfC2w).rows.Pairwise
          (· ≠ ·)) ∧
      (∀ r ∈ (clean_train_delays demoParseN demoParseT dfC2w).rows,
        ∀ t : Int, rowGet r "scheduled_time" = some (Cell.time t) →
        ∃ d : Rat, rowGet r "day_of_week" = some (Cell.num d)
          ∧ 0 ≤ d ∧ d ≤ 6)) :=
  ⟨⟨by decide, by decide⟩,
    spec_C2 demoParseN demoParseT dfC2w (by decide) (by decide)⟩

/-- Unpack a successful shapely point construction into its coordinate
lookups. -/
theorem rowPoint_eq_some (lat_col lon_col : String) (r : Row) (p : GeoPoint)
    (h : rowPoint lat_col lon_col r = some p) :
    rowGet r lon_col = some (Cell.num p.x) ∧
    rowGet r lat_col = some (Cell.num p.y) := by
  unfold rowPoint at h
  split at h
  next x y hx hy =>
    cases Option.some.inj h
    exact ⟨hx, hy⟩
  next => exact Option.noConfusion h

/-- C9 counterexample: a table whose latitude value is a non-null string
makes shapely's `Point` constructor raise; the exception is caught and
`create_gdf_from_points` returns `None` instead of the geometry table the
claim promises for every table containing the two named columns. -/
theorem spec_C9_counterexample :
    ("latitude" ∈ dfC9ce.cols ∧ "longitude" ∈ dfC9ce.cols) ∧
    create_gdf_from_points dfC9ce "latitude" "longitude" "EPSG:4326"
      = none := by
  exact ⟨⟨by decide, by decide⟩, by decide⟩

/-- C9 (amended): on a table containing the named coordinate columns in
which every row surviving the null filter has numeric coordinates,
`create_gdf_from_points` returns a geometry table holding exactly the rows
with both coordinates non-null, each paired with the point
`Point(lon, lat)` — x from the longitude column, y from the latitude
column — tagged with the requested CRS. -/
theorem spec_C9 (df : DF) (lat_col lon_col crs : String)
    (hlat : lat_col ∈ df.cols) (hlon : lon_col ∈ df.cols)
    (hco : ∀ r ∈ df.rows, cellNotNull (rowGet r lat_col) = true →
      cellNotNull (rowGet r lon_col) = true →
      (rowPoint lat_col lon_col r).isSome = true) :
    ∃ g : GeoDF, create_gdf_from_points df lat_col lon_col crs = some g ∧
      g.table.cols = df.cols ∧
      g.table.rows = df.rows.filter (fun r =>
        cellNotNull (rowGet r lat_col) && cellNotNull (rowGet r lon_col)) ∧
      g.crs = some crs ∧
      List.Forall₂ (fun (r : Row) (p : GeoPoint) =>
          rowGet r lon_col = some (Cell.num p.x) ∧
          rowGet r lat_col = some (Cell.num p.y))
        g.table.rows g.geometry := by
  unfold create_gdf_from_points
  rw [if_neg (not_not_intro ⟨hlat, hlon⟩)]
  simp only []
  have hall : (df.rows.filter (fun r =>
      cellNotNull (rowGet r lat_col)
        && cellNotNull (rowGet r lon_col))).all
      (fun r => (rowPoint lat_col lon_col r).isSome) = true := by
    rw [List.all_eq_true]
    intro r hr
    have hm := List.mem_filter.mp hr
    have hb := hm.2
    rw [Bool.and_eq_true] at hb
    exact hco r hm.1 hb.1 hb.2
  rw [if_pos hall]
  refine ⟨_, rfl, rfl, rfl, rfl, ?_⟩
  have h2 := forall₂_filterMap_of_isSome _ (rowPoint lat_col lon_col)
    (List.all_eq_true.mp hall)
  exact List.Forall₂.imp
    (fun {a b} h => rowPoint_eq_some lat_col lon_col a b h) h2

/-- Witness for C9 at a concrete station table: the null-coordinate row is
dropped, the numeric row becomes a point with x = longitude and
y = latitude. -/
theorem spec_C9_witness :
    ("latitude" ∈ dfC9w.cols ∧ "longitude" ∈ dfC9w.cols ∧
      (∀ r ∈ dfC9w.rows, cellNotNull (rowGet r "latitude") = true →
        cellNotNull (rowGet r "longitude") = true →
        (rowPoint "latitude" "longitude" r).isSome = true)) ∧
    (∃ g : GeoDF, create_gdf_from_points dfC9w "latitude" "longitude"
          "EPSG:4326" = some g ∧
      g.table.cols = dfC9w.cols ∧
      g.table.rows = dfC9w.rows.filter (fun r =>
        cellNotNull (rowGet r "latitude")
          && cellNotNull (rowGet r "longitude")) ∧
      g.crs = some "EPSG:4326" ∧
      List.Forall₂ (fun (r : Row) (p : GeoPoint) =>
          rowGet r "longitude" = some (Cell.num p.x) ∧
          rowGet r "latitude" = some (Cell.num p.y))
        g.table.rows g.geometry) :=
  ⟨⟨by decide, by decide, by decide⟩,
    spec_C9 dfC9w "latitude" "longitude" "EPSG:4326" (by decide)
      (by decide) (by decide)⟩
